import Mathlib

/-!
Verification of the Spark-TTS serverless job orchestrator and object-storage
gateway (src/handler.py and src/s3_utils.py), as a shallow embedding.

Strings from the Python source are modelled as lists of characters; every
fallible external call (S3 transfer, model inference, codec write) is an
explicit `Except` outcome supplied by an environment record, and the side
effects of a job are recorded as an explicit event trace.
-/

/-- Python strings are modelled as lists of characters. -/
abbrev Str := List Char

namespace SparkTTS

namespace S3Handler

/-- Result of the locator dispatch inside `S3Handler.download_file`
(s3_utils.py lines 94-115): either an S3 object fetch from a bucket and key,
or a direct HTTP fetch of the given URL string. -/
inductive DlAction where
  | s3Object (bucket key : Str)
  | httpFetch (url : Str)
deriving DecidableEq

/-- Python `s.startswith(pat)`: `startsWithStr s pat` is true when `pat` is a
prefix of `s`. -/
def startsWithStr (s pat : Str) : Bool :=
  match pat, s with
  | [], _ => true
  | _ :: _, [] => false
  | p :: ps, c :: cs => if c = p then startsWithStr cs ps else false

/-- Python `s.split(sep, 1)`: the part before the first occurrence of `sep`,
and (when `sep` occurs) the remainder after it. -/
def splitOnce : Str → Char → Str × Option Str
  | [], _ => ([], none)
  | c :: cs, sep =>
    if c = sep then ([], some cs)
    else
      let r := splitOnce cs sep
      (c :: r.1, r.2)

/-- Locator dispatch of `S3Handler.download_file` (s3_utils.py lines 96-110):
an `s3://` path is split at the first `/` after the scheme into bucket and key
(empty key when there is no `/`); anything starting with `http` is fetched
directly as a URL; any other string is a bare key in the default bucket. -/
def download_file (defaultBucket : Str) (s3_url : Str) : DlAction :=
  if startsWithStr s3_url ("s3://".data) then
    match splitOnce (s3_url.drop 5) '/' with
    | (bucket, some key) => .s3Object bucket key
    | (bucket, none) => .s3Object bucket []
  else if startsWithStr s3_url ("http".data) then
    .httpFetch s3_url
  else
    .s3Object defaultBucket s3_url

/-- `S3Handler.generate_presigned_url` (s3_utils.py lines 140-154): returns the
URL produced by the boto3 presign call, and `none` when that call raises a
`ClientError` (the error is caught and `None` returned). -/
def generate_presigned_url (botoCall : Except Str Str) : Option Str :=
  match botoCall with
  | .ok url => some url
  | .error _ => none

/-- `S3Handler.upload_file` (s3_utils.py lines 64-81): re-raises a failure of
the byte transfer, and after a successful transfer returns the result of
`generate_presigned_url` (which may be `none`). -/
def upload_file (transfer : Except Str Unit) (botoCall : Except Str Str) :
    Except Str (Option Str) :=
  match transfer with
  | .error e => .error e
  | .ok _ => .ok (generate_presigned_url botoCall)

/-- The property claimed of `upload_file`: the returned value is a usable
access URL. -/
def returnsAccessURL (r : Except Str (Option Str)) : Prop :=
  ∃ u : Str, r = Except.ok (some u)

end S3Handler

/-- One timed segment as returned by WhisperX alignment: a dict with keys
`start`, `end` (here `stop`) and `text` (handler.py lines 258-261). -/
structure Segment where
  start : ℚ
  stop : ℚ
  text : Str
deriving DecidableEq

/-- The keyword arguments passed to `spark_tts_model.generate`
(handler.py lines 128-140).  The reference audio is represented by the shape
of the numpy array passed as `prompt_speech_16k`. -/
structure SynthParams where
  text : Str
  prompt_text : Option Str
  prompt_speech_16k : Option (List Nat)
  speaker_gender : Str
  pitch_shift : ℚ
  speed_shift : ℚ
  multi_sentence_gap : ℚ
  task_token : Str
  temperature : ℚ
  top_p : ℚ
  max_length : Nat

/-- The recognized fields of `job['input']` (handler.py lines 89-106); every
field is optional in the incoming JSON, the defaults are applied at
extraction. -/
structure JobInput where
  text : Option Str
  prompt_text : Option Str
  prompt_speech_url : Option Str
  output_name : Option Str
  speaker_gender : Option Str
  pitch_shift : Option ℚ
  speed_shift : Option ℚ
  multi_sentence_gap : Option ℚ
  task_token : Option Str
  temperature : Option ℚ
  top_p : Option ℚ
  max_length : Option Nat
  enable_whisperx : Option Bool
  enable_subtitles : Option Bool

/-- A Runpod job: an id and the input payload. -/
structure Job where
  id : Str
  input : JobInput

/-- Side effects performed by a job, in order: a storage/URL download creating
a local file, a local file removal, the synthesis call (recording the shape of
the reference array passed, if any), a local file write, and an upload attempt
(recording the local path handed to `upload_file` and the object key). -/
inductive Event where
  | download (src dst : Str)
  | removeFile (path : Str)
  | synthCall (promptShape : Option (List Nat))
  | writeFile (path : Str)
  | uploadCall (path : Option Str) (key : Str)
deriving DecidableEq

/-- Outcomes of the external, failure-prone calls made by one run of
`handler`: each field is the result the outside world would give to the
corresponding call site.  `whisperx` is the value returned by
`generate_word_timings`, which catches its own exceptions and returns `None`
on failure (handler.py lines 193-222); `genSubtitles` tells whether
`generate_subtitles` succeeded (it also catches its own errors and returns
`None`, handler.py lines 224-280); the two upload fields are `upload_file`
outcomes: a thrown transfer error, or a completed transfer carrying the
(possibly `None`) presigned URL. -/
structure Env where
  download : Except Str Unit
  decode : Except Str (Nat × Nat × Nat)
  resampleFrames : Nat → Nat → Nat
  synth : SynthParams → Except Str (List ℚ)
  sampleRate : ℚ
  sfWrite : Except Str Unit
  whisperx : Option (List Segment)
  genSubtitles : Bool
  uploadSubtitle : Except Str (Option Str)
  uploadAudio : Except Str (Option Str)

/-- The JSON object returned by `handler`: the success dict always carries
`status`, `audio_url`, `sample_rate` and `duration` (handler.py lines
173-178), adds `word_timings` and `subtitles_url` only when truthy, and the
error dict carries only `error` (line 191). -/
structure Response where
  status : Option Str
  audio_url : Option Str
  sample_rate : Option ℚ
  duration : Option ℚ
  word_timings : Option (List Segment)
  subtitles_url : Option Str
  error : Option Str
deriving DecidableEq

/-- The error dict `\x7b"error": str(e)\x7d` of handler.py line 191 (also line
91): every other field is absent. -/
def errResp (e : Str) : Response :=
  { status := none, audio_url := none, sample_rate := none, duration := none,
    word_timings := none, subtitles_url := none, error := some e }

/-- The literal `"success"`. -/
def successStr : Str := "success".data

/-- The message of handler.py line 91. -/
def msgTextRequired : Str := "Text parameter is required".data

/-- The `ValueError` message boto3 raises when `upload_file` is handed `None`
as the local filename (which happens when `generate_subtitles` failed and
returned `None`, handler.py lines 156-160). -/
def msgUploadNone : Str := "Filename must be a string or a path-like object".data

/-- Python truthiness of the optional `word_timings` list: `None` and the
empty list are falsy (handler.py lines 154 and 180). -/
def wtTruthy : Option (List Segment) → Bool
  | none => false
  | some l => !l.isEmpty

/-- Python truthiness of the optional `subtitles_url` string (handler.py line
183): `None` and the empty string are falsy. -/
def optStrTruthy : Option Str → Bool
  | none => false
  | some s => !s.isEmpty

/-- Temp path of the downloaded reference audio (handler.py line 112). -/
def refPath (jid : Str) : Str := "/tmp/ref_audio_".data ++ (jid ++ ".wav".data)

/-- Temp path of the rendered waveform file (handler.py line 143). -/
def outPath (name jid : Str) : Str :=
  "/tmp/".data ++ (name ++ ("_".data ++ (jid ++ ".wav".data)))

/-- Temp path of the rendered subtitle file (handler.py line 272). -/
def subPath (name jid : Str) : Str :=
  "/tmp/".data ++ (name ++ ("_".data ++ (jid ++ ".ass".data)))

/-- Object key of the uploaded audio (handler.py line 166). -/
def audioKey (name jid : Str) : Str :=
  "output/".data ++ (name ++ ("_".data ++ (jid ++ ".wav".data)))

/-- Object key of the uploaded subtitles (handler.py line 159). -/
def subKey (name jid : Str) : Str :=
  "output/subtitles/".data ++ (name ++ ("_".data ++ (jid ++ ".ass".data)))

/-- `job_input.get('output_name', 'output')` (handler.py line 96). -/
def effOutputName (ji : JobInput) : Str := ji.output_name.getD ("output".data)

/-- Shape of `waveform.squeeze()` applied to a torchaudio tensor of shape
`[channels, frames]` (handler.py line 121): `squeeze` drops every dimension
of size 1 and keeps the rest. -/
def squeezeShape (c f : Nat) : List Nat :=
  (if c = 1 then [] else [c]) ++ (if f = 1 then [] else [f])

/-- Is a numpy array of the given shape a mono waveform (a one-dimensional
array of samples)? -/
def isMono (shape : List Nat) : Bool := shape.length == 1

/-- Assembly of the `spark_tts_model.generate` arguments with their defaults
(handler.py lines 94-104 and 128-140). -/
def mkParams (ji : JobInput) (text : Str) (promptShape : Option (List Nat)) :
    SynthParams :=
  { text := text
    prompt_text := ji.prompt_text
    prompt_speech_16k := promptShape
    speaker_gender := ji.speaker_gender.getD ("male".data)
    pitch_shift := ji.pitch_shift.getD 0
    speed_shift := ji.speed_shift.getD 1
    multi_sentence_gap := ji.multi_sentence_gap.getD ((3 : ℚ) / 10)
    task_token := ji.task_token.getD ("zero_shot".data)
    temperature := ji.temperature.getD ((7 : ℚ) / 10)
    top_p := ji.top_p.getD ((95 : ℚ) / 100)
    max_length := ji.max_length.getD 4096 }

/-- The reference-audio acquisition block (handler.py lines 109-124): when a
`prompt_speech_url` is given, download it to `refPath`, decode it to a tensor
of shape `[channels, frames]` at a native rate, resample to 16 kHz when the
native rate differs, squeeze, and delete the temp file.  A download or decode
failure propagates as an exception; on failure the downloaded temp file is
not removed. -/
def acquireRef (env : Env) (url : Option Str) (jid : Str) :
    Except Str (Option (List Nat)) × List Event :=
  match url with
  | none => (.ok none, [])
  | some u =>
    match env.download with
    | .error e => (.error e, [.download u (refPath jid)])
    | .ok _ =>
      match env.decode with
      | .error e => (.error e, [.download u (refPath jid)])
      | .ok (c, f, rate) =>
        (.ok (some (squeezeShape c
            (if rate = 16000 then f else env.resampleFrames f rate))),
          [.download u (refPath jid), .removeFile (refPath jid)])

/-- `word_timings` as set by handler.py lines 147-150: `None` unless
`enable_whisperx` is truthy, in which case the result of
`generate_word_timings` (which is `None` on any WhisperX failure). -/
def wordTimings (env : Env) (ji : JobInput) : Option (List Segment) :=
  if ji.enable_whisperx.getD false then env.whisperx else none

/-- The subtitle block (handler.py lines 152-161): when `enable_subtitles`
and `word_timings` are truthy, render the subtitle file, upload it, and
remove the temp file.  If `generate_subtitles` failed (returned `None`),
the call `upload_file(None, ...)` raises; if the upload itself raises, the
exception propagates and the subtitle temp file is not removed. -/
def subtitleStep (env : Env) (enableSubs : Bool) (wt : Option (List Segment))
    (name jid : Str) : Except Str (Option Str) × List Event :=
  if enableSubs && wtTruthy wt then
    if env.genSubtitles then
      match env.uploadSubtitle with
      | .error e =>
        (.error e,
          [.writeFile (subPath name jid),
           .uploadCall (some (subPath name jid)) (subKey name jid)])
      | .ok r =>
        (.ok r,
          [.writeFile (subPath name jid),
           .uploadCall (some (subPath name jid)) (subKey name jid),
           .removeFile (subPath name jid)])
    else
      (.error msgUploadNone, [.uploadCall none (subKey name jid)])
  else
    (.ok none, [])

/-- The body of `handler` (handler.py lines 85-191) with its surrounding
`try/except`: validate `text`, acquire the reference audio, synthesize, write
the waveform to a temp file, optionally align and render subtitles, upload
the artifacts, clean up the success-path temp files, and assemble the
response; any exception raised on the way is caught at the boundary and
turned into the error dict.  Returns the response together with the ordered
trace of side effects. -/
def handlerCore (env : Env) (job : Job) : Response × List Event :=
  match job.input.text with
  | none => (errResp msgTextRequired, [])
  | some text =>
    if text.isEmpty then (errResp msgTextRequired, [])
    else
      match acquireRef env job.input.prompt_speech_url job.id with
      | (.error e, evs0) => (errResp e, evs0)
      | (.ok promptShape, evs0) =>
        match env.synth (mkParams job.input text promptShape) with
        | .error e => (errResp e, evs0 ++ [.synthCall promptShape])
        | .ok wav =>
          match env.sfWrite with
          | .error e => (errResp e, evs0 ++ [.synthCall promptShape])
          | .ok _ =>
            match subtitleStep env (job.input.enable_subtitles.getD false)
                (wordTimings env job.input) (effOutputName job.input) job.id with
            | (.error e, evsS) =>
              (errResp e,
                evs0 ++ (.synthCall promptShape ::
                  .writeFile (outPath (effOutputName job.input) job.id) :: evsS))
            | (.ok subtitles_url, evsS) =>
              match env.uploadAudio with
              | .error e =>
                (errResp e,
                  evs0 ++ (.synthCall promptShape ::
                    .writeFile (outPath (effOutputName job.input) job.id) ::
                    (evsS ++
                      [.uploadCall (some (outPath (effOutputName job.input) job.id))
                        (audioKey (effOutputName job.input) job.id)])))
              | .ok audio_url =>
                ({ status := some successStr
                   audio_url := audio_url
                   sample_rate := some env.sampleRate
                   duration := some ((wav.length : ℚ) / env.sampleRate)
                   word_timings :=
                     if wtTruthy (wordTimings env job.input)
                     then wordTimings env job.input else none
                   subtitles_url :=
                     if optStrTruthy subtitles_url then subtitles_url else none
                   error := none },
                  evs0 ++ (.synthCall promptShape ::
                    .writeFile (outPath (effOutputName job.input) job.id) ::
                    (evsS ++
                      [.uploadCall (some (outPath (effOutputName job.input) job.id))
                        (audioKey (effOutputName job.input) job.id),
                       .removeFile (outPath (effOutputName job.input) job.id)])))

/-- The response returned by one run of `handler`. -/
def handler (env : Env) (job : Job) : Response := (handlerCore env job).1

/-- The ordered side-effect trace of one run of `handler`. -/
def jobTrace (env : Env) (job : Job) : List Event := (handlerCore env job).2

/-- Which event creates a local temp file: the download destination and every
local file write. -/
def createdOf : Event → Option Str
  | .download _ dst => some dst
  | .writeFile p => some p
  | _ => none

/-- Which event removes a local temp file. -/
def removedOf : Event → Option Str
  | .removeFile p => some p
  | _ => none

/-- All local temp files a trace creates. -/
def createdFiles (evs : List Event) : List Str := evs.filterMap createdOf

/-- All local temp files a trace removes. -/
def removedFiles (evs : List Event) : List Str := evs.filterMap removedOf

/-- A job input with every optional field absent. -/
def baseInput : JobInput :=
  { text := none, prompt_text := none, prompt_speech_url := none,
    output_name := none, speaker_gender := none, pitch_shift := none,
    speed_shift := none, multi_sentence_gap := none, task_token := none,
    temperature := none, top_p := none, max_length := none,
    enable_whisperx := none, enable_subtitles := none }

/-- An environment in which every external call succeeds: the synthesized
waveform has four samples at sample rate 2, and both uploads return a
presigned URL. -/
def baseEnv : Env :=
  { download := .ok (), decode := .ok (1, 4, 16000),
    resampleFrames := fun f _ => f,
    synth := fun _ => .ok [0, 0, 0, 0],
    sampleRate := 2,
    sfWrite := .ok (),
    whisperx := none,
    genSubtitles := true,
    uploadSubtitle := .ok (some ("https://sub".data)),
    uploadAudio := .ok (some ("https://audio".data)) }

/-- Environment for C1: alignment yields one segment, the subtitle upload
raises. -/
def env1 : Env :=
  { baseEnv with
    whisperx := some [{ start := 0, stop := 1, text := "hi".data }],
    uploadSubtitle := .error ("SubtitleUploadError".data) }

/-- Job for C1: subtitles (and hence alignment) requested. -/
def job1 : Job :=
  { id := "j1".data,
    input := { baseInput with
               text := some ("hello".data),
               enable_whisperx := some true,
               enable_subtitles := some true } }

/-- Environment for C2: the audio upload transfer succeeds but the presign
call fails, so `upload_file` returns `None`. -/
def env2 : Env := { baseEnv with uploadAudio := .ok none }

/-- Job for C2: a plain request. -/
def job2 : Job :=
  { id := "j2".data, input := { baseInput with text := some ("hello".data) } }

/-- Job for C3: alignment requested; `baseEnv.whisperx = none` models the
WhisperX failure. -/
def job3 : Job :=
  { id := "j3".data,
    input := { baseInput with
               text := some ("hello".data),
               enable_whisperx := some true } }

/-- Job for C4: the `text` field is missing. -/
def job4 : Job := { id := "j4".data, input := baseInput }

/-- Environment for C7's counterexample: the audio upload raises. -/
def env7 : Env := { baseEnv with uploadAudio := .error ("TransportError".data) }

/-- Job for C7's counterexample. -/
def job7 : Job :=
  { id := "j7".data, input := { baseInput with text := some ("hello".data) } }

/-- Environment for C7's witness: everything succeeds, alignment included. -/
def env7s : Env :=
  { baseEnv with whisperx := some [{ start := 0, stop := 1, text := "hi".data }] }

/-- Job for C7's witness: a fully successful job with subtitles. -/
def job7s : Job :=
  { id := "j7s".data,
    input := { baseInput with
               text := some ("hello".data),
               enable_whisperx := some true,
               enable_subtitles := some true } }

/-- Environment for C8's counterexample: the reference decodes to a stereo
(two-channel, four-frame) tensor already at 16 kHz. -/
def env8 : Env := { baseEnv with decode := .ok (2, 4, 16000) }

/-- Environment for C8's witness: a stereo reference at a native 8 kHz, with
a resampler that doubles the frame count. -/
def env8w : Env :=
  { baseEnv with
    decode := .ok (2, 8000, 8000),
    resampleFrames := fun f _ => 2 * f }

/-- Job for C9: a plain successful request. -/
def job9 : Job :=
  { id := "j9".data, input := { baseInput with text := some ("hello".data) } }

namespace S3Handler

lemma startsWithStr_append (p rest : Str) : startsWithStr (p ++ rest) p = true := by
  induction p with
  | nil => simp [startsWithStr]
  | cons c cs ih => simp [startsWithStr, ih]

lemma splitOnce_no_sep_append (b k : Str) (h : '/' ∉ b) :
    splitOnce (b ++ '/' :: k) '/' = (b, some k) := by
  induction b with
  | nil => simp [splitOnce]
  | cons c cs ih =>
    simp only [List.mem_cons, not_or] at h
    simp [splitOnce, Ne.symm h.1, ih h.2]

lemma startsWith_http_not_s3 (s : Str) (h : startsWithStr s ("http".data) = true) :
    startsWithStr s ("s3://".data) = false := by
  cases s with
  | nil => simp [startsWithStr] at h
  | cons c cs =>
    by_cases hc : c = 'h'
    · subst hc
      simp [startsWithStr, show ('h' = 's') = False by simp]
    · simp [startsWithStr, hc] at h

end S3Handler

/-- Claim C6: `download_file` dispatches on the locator shape: an
`s3://bucketX/keyY` locator (bucket without a slash) resolves to bucket
`bucketX` and key `keyY`; a fully-qualified `https://...` URL is fetched
directly with no bucket/key resolution; any other string is a bare key in the
configured default bucket. -/
theorem claim6_download_dispatch :
    (∀ b k d : Str, '/' ∉ b →
        S3Handler.download_file d ("s3://".data ++ (b ++ '/' :: k)) =
          .s3Object b k)
  ∧ (∀ rest d : Str,
        S3Handler.download_file d ("https://".data ++ rest) =
          .httpFetch ("https://".data ++ rest))
  ∧ (∀ s d : Str, S3Handler.startsWithStr s ("s3://".data) = false →
        S3Handler.startsWithStr s ("http".data) = false →
        S3Handler.download_file d s = .s3Object d s) := by
  refine ⟨?_, ?_, ?_⟩
  · intro b k d h
    have h1 : S3Handler.startsWithStr ("s3://".data ++ (b ++ '/' :: k))
        ("s3://".data) = true := S3Handler.startsWithStr_append _ _
    have h2 : List.drop 5 ("s3://".data ++ (b ++ '/' :: k)) = b ++ '/' :: k := rfl
    unfold S3Handler.download_file
    rw [if_pos h1, h2, S3Handler.splitOnce_no_sep_append b k h]
  · intro rest d
    rfl
  · intro s d h1 h2
    simp [S3Handler.download_file, h1, h2]

/-- Witness for C6 at concrete locators of each of the three shapes. -/
theorem claim6_download_dispatch_witness :
    S3Handler.download_file ("defaultB".data) ("s3://bucketX/keyY".data) =
      .s3Object ("bucketX".data) ("keyY".data)
  ∧ S3Handler.download_file ("defaultB".data) ("https://example.com/a".data) =
      .httpFetch ("https://example.com/a".data)
  ∧ S3Handler.download_file ("defaultB".data) ("voices/ref.wav".data) =
      .s3Object ("defaultB".data) ("voices/ref.wav".data) :=
  ⟨claim6_download_dispatch.1 ("bucketX".data) ("keyY".data) ("defaultB".data)
      (by decide),
   claim6_download_dispatch.2.1 ("example.com/a".data) ("defaultB".data),
   claim6_download_dispatch.2.2 ("voices/ref.wav".data) ("defaultB".data)
      (by decide) (by decide)⟩

/-- Claim C10: `download_file` classifies a locator as a direct network URL by
string shape alone — any locator that merely starts with the characters
`http` (and is of course not an `s3://` path, which no such string is) is
fetched directly, never resolved as a bucket/key pair. -/
theorem claim10_http_prefix_dispatch (d s : Str)
    (h : S3Handler.startsWithStr s ("http".data) = true) :
    S3Handler.download_file d s = .httpFetch s := by
  simp [S3Handler.download_file, S3Handler.startsWith_http_not_s3 s h, h]

/-- Witness for C10: the bare key `http_ref.wav` is treated as a URL. -/
theorem claim10_http_prefix_dispatch_witness :
    S3Handler.startsWithStr ("http_ref.wav".data) ("http".data) = true ∧
    S3Handler.download_file ("mybucket".data) ("http_ref.wav".data) =
      .httpFetch ("http_ref.wav".data) :=
  ⟨by decide,
   claim10_http_prefix_dispatch ("mybucket".data) ("http_ref.wav".data)
     (by decide)⟩

/-- Counterexample to C5: when the byte transfer completes but the presign
call raises a `ClientError`, `upload_file` returns `None` — a value that is
not a usable access URL. -/
theorem claim5_upload_url_cex :
    S3Handler.upload_file (Except.ok ()) (Except.error ("AccessDenied".data)) =
      Except.ok none ∧
    ¬ S3Handler.returnsAccessURL
        (S3Handler.upload_file (Except.ok ())
          (Except.error ("AccessDenied".data))) := by
  constructor
  · rfl
  · rintro ⟨u, hu⟩
    simp [S3Handler.upload_file, S3Handler.generate_presigned_url] at hu

/-- Claim C5 as amended: after a completed byte transfer `upload_file` returns
exactly the result of `generate_presigned_url` — the fresh presigned URL when
the presign call succeeds, and `None` (never a bucket-relative key) when it
fails; a failed transfer re-raises. -/
theorem claim5_upload_url_amended :
    (∀ p : Except Str Str,
        S3Handler.upload_file (Except.ok ()) p =
          Except.ok (S3Handler.generate_presigned_url p))
  ∧ (∀ (p : Except Str Str) (u : Str), p = Except.ok u →
        S3Handler.upload_file (Except.ok ()) p = Except.ok (some u))
  ∧ (∀ (e : Str) (p : Except Str Str),
        S3Handler.upload_file (Except.error e) p = Except.error e) := by
  refine ⟨fun p => rfl, ?_, fun e p => rfl⟩
  rintro p u rfl
  rfl

/-- Witness for the amended C5 at a successful presign call. -/
theorem claim5_upload_url_amended_witness :
    S3Handler.upload_file (Except.ok ()) (Except.ok ("https://signed".data)) =
      Except.ok (some ("https://signed".data)) :=
  claim5_upload_url_amended.2.1 (Except.ok ("https://signed".data))
    ("https://signed".data) rfl

@[simp] lemma createdFiles_nil : createdFiles [] = [] := rfl

@[simp] lemma createdFiles_download (s d : Str) (evs : List Event) :
    createdFiles (.download s d :: evs) = d :: createdFiles evs := rfl

@[simp] lemma createdFiles_remove (p : Str) (evs : List Event) :
    createdFiles (.removeFile p :: evs) = createdFiles evs := rfl

@[simp] lemma createdFiles_synth (ps : Option (List Nat)) (evs : List Event) :
    createdFiles (.synthCall ps :: evs) = createdFiles evs := rfl

@[simp] lemma createdFiles_write (p : Str) (evs : List Event) :
    createdFiles (.writeFile p :: evs) = p :: createdFiles evs := rfl

@[simp] lemma createdFiles_upload (p : Option Str) (k : Str) (evs : List Event) :
    createdFiles (.uploadCall p k :: evs) = createdFiles evs := rfl

@[simp] lemma createdFiles_append (a b : List Event) :
    createdFiles (a ++ b) = createdFiles a ++ createdFiles b := by
  simp [createdFiles, List.filterMap_append]

@[simp] lemma removedFiles_nil : removedFiles [] = [] := rfl

@[simp] lemma removedFiles_download (s d : Str) (evs : List Event) :
    removedFiles (.download s d :: evs) = removedFiles evs := rfl

@[simp] lemma removedFiles_remove (p : Str) (evs : List Event) :
    removedFiles (.removeFile p :: evs) = p :: removedFiles evs := rfl

@[simp] lemma removedFiles_synth (ps : Option (List Nat)) (evs : List Event) :
    removedFiles (.synthCall ps :: evs) = removedFiles evs := rfl

@[simp] lemma removedFiles_write (p : Str) (evs : List Event) :
    removedFiles (.writeFile p :: evs) = removedFiles evs := rfl

@[simp] lemma removedFiles_upload (p : Option Str) (k : Str) (evs : List Event) :
    removedFiles (.uploadCall p k :: evs) = removedFiles evs := rfl

@[simp] lemma removedFiles_append (a b : List Event) :
    removedFiles (a ++ b) = removedFiles a ++ removedFiles b := by
  simp [removedFiles, List.filterMap_append]

lemma acquireRef_ok_clean (env : Env) (url : Option Str) (jid : Str)
    (ps : Option (List Nat)) (evs : List Event)
    (h : acquireRef env url jid = (.ok ps, evs)) :
    ∀ p, p ∈ createdFiles evs → p ∈ removedFiles evs := by
  rcases url with _ | u
  · simp only [acquireRef, Prod.mk.injEq] at h
    obtain ⟨-, h2⟩ := h
    subst h2
    simp
  · rcases hd : env.download with e | u'
    · simp [acquireRef, hd] at h
    · rcases hdec : env.decode with e | trip
      · simp [acquireRef, hd, hdec] at h
      · obtain ⟨c, f, rate⟩ := trip
        simp only [acquireRef, hd, hdec, Prod.mk.injEq] at h
        obtain ⟨-, h2⟩ := h
        subst h2
        intro p hp
        simp only [createdFiles_download, createdFiles_remove,
          createdFiles_nil] at hp
        simpa using hp

lemma subtitleStep_ok_clean (env : Env) (es : Bool) (wt : Option (List Segment))
    (name jid : Str) (su : Option Str) (evs : List Event)
    (h : subtitleStep env es wt name jid = (.ok su, evs)) :
    ∀ p, p ∈ createdFiles evs → p ∈ removedFiles evs := by
  unfold subtitleStep at h
  cases hc : es && wtTruthy wt with
  | false =>
    rw [hc] at h
    simp only [Bool.false_eq_true, if_false, Prod.mk.injEq] at h
    obtain ⟨-, h2⟩ := h
    subst h2
    simp
  | true =>
    rw [hc] at h
    cases hg : env.genSubtitles with
    | false =>
      rw [hg] at h
      simp at h
    | true =>
      rw [hg] at h
      rcases hu : env.uploadSubtitle with e | r
      · rw [hu] at h
        simp at h
      · rw [hu] at h
        simp only [if_true, Prod.mk.injEq] at h
        obtain ⟨-, h2⟩ := h
        subst h2
        intro p hp
        simp only [createdFiles_write, createdFiles_upload, createdFiles_remove,
          createdFiles_nil] at hp
        simpa using hp

/-- Claim C4: a request whose `text` is missing or empty returns the error
result immediately, with an empty side-effect trace: no download, no
synthesis call, no file write, no upload. -/
theorem claim4_empty_text_no_side_effects (env : Env) (job : Job)
    (h : job.input.text = none ∨ job.input.text = some []) :
    handlerCore env job = (errResp msgTextRequired, []) := by
  rcases h with h | h <;> simp [handlerCore, h]

/-- Witness for C4 at a request with no `text` field. -/
theorem claim4_empty_text_no_side_effects_witness :
    handlerCore baseEnv job4 = (errResp msgTextRequired, []) :=
  claim4_empty_text_no_side_effects baseEnv job4 (Or.inl rfl)

/-- Claim C3: when alignment is requested and the WhisperX stage fails
(`generate_word_timings` returns `None`) while every other stage succeeds,
the job still returns a success response with the audio fields populated and
with `word_timings` and `subtitles_url` absent. -/
theorem claim3_alignment_failure_degrades (env : Env) (job : Job) (t : Str)
    (ps : Option (List Nat)) (evs0 : List Event) (wav : List ℚ) (u : Str)
    (hT : job.input.text = some t) (hE : t.isEmpty = false)
    (hWx : job.input.enable_whisperx.getD false = true)
    (hWn : env.whisperx = none)
    (hA : acquireRef env job.input.prompt_speech_url job.id = (.ok ps, evs0))
    (hSy : env.synth (mkParams job.input t ps) = .ok wav)
    (hW : env.sfWrite = .ok ())
    (hUa : env.uploadAudio = .ok (some u)) :
    handler env job =
      { status := some successStr, audio_url := some u,
        sample_rate := some env.sampleRate,
        duration := some ((wav.length : ℚ) / env.sampleRate),
        word_timings := none, subtitles_url := none, error := none } := by
  simp [handler, handlerCore, hT, hE, hA, hSy, hW, hUa, subtitleStep,
    wordTimings, hWx, hWn, wtTruthy, optStrTruthy]

/-- Witness for C3: with alignment requested and WhisperX failing, the job is
a success with four samples at rate 2 and no timing or subtitle fields. -/
theorem claim3_alignment_failure_degrades_witness :
    handler baseEnv job3 =
      { status := some successStr, audio_url := some ("https://audio".data),
        sample_rate := some 2, duration := some 2,
        word_timings := none, subtitles_url := none, error := none } := by
  rw [claim3_alignment_failure_degrades baseEnv job3 ("hello".data) none []
    [0, 0, 0, 0] ("https://audio".data) rfl rfl rfl rfl rfl rfl rfl rfl]
  norm_num [baseEnv, Response.mk.injEq]

/-- Claim C9: on every successful job the response's `duration` is exactly the
synthesized waveform's sample count divided by the engine sample rate, and
`sample_rate` is exactly the engine sample rate. -/
theorem claim9_duration_exact (env : Env) (job : Job) (t : Str)
    (ps : Option (List Nat)) (evs0 : List Event) (wav : List ℚ)
    (su : Option Str) (evsS : List Event) (au : Option Str)
    (hT : job.input.text = some t) (hE : t.isEmpty = false)
    (hA : acquireRef env job.input.prompt_speech_url job.id = (.ok ps, evs0))
    (hSy : env.synth (mkParams job.input t ps) = .ok wav)
    (hW : env.sfWrite = .ok ())
    (hSub : subtitleStep env (job.input.enable_subtitles.getD false)
        (wordTimings env job.input) (effOutputName job.input) job.id =
        (.ok su, evsS))
    (hUa : env.uploadAudio = .ok au) :
    (handler env job).status = some successStr
    ∧ (handler env job).sample_rate = some env.sampleRate
    ∧ (handler env job).duration = some ((wav.length : ℚ) / env.sampleRate) := by
  simp [handler, handlerCore, hT, hE, hA, hSy, hW, hSub, hUa]

/-- Witness for C9: four samples at rate 2 give duration exactly 2. -/
theorem claim9_duration_exact_witness :
    (handler baseEnv job9).status = some successStr
    ∧ (handler baseEnv job9).sample_rate = some 2
    ∧ (handler baseEnv job9).duration = some 2 := by
  obtain ⟨h1, h2, h3⟩ := claim9_duration_exact baseEnv job9 ("hello".data)
    none [] [0, 0, 0, 0] none [] (some ("https://audio".data))
    rfl rfl rfl rfl rfl rfl rfl
  refine ⟨h1, h2, ?_⟩
  rw [h3]
  norm_num [baseEnv]

/-- Counterexample to C1: a job in which a subtitle document was produced
(the subtitle temp file appears in the trace) but whose subtitle upload
raises: the handler returns the error dict, not a success result. -/
theorem claim1_subtitle_upload_nonfatal_cex :
    Event.writeFile (subPath ("output".data) ("j1".data)) ∈ jobTrace env1 job1
    ∧ (handler env1 job1).error = some ("SubtitleUploadError".data)
    ∧ (handler env1 job1).status = none
    ∧ (handler env1 job1).audio_url = none := by
  refine ⟨by decide, rfl, rfl, rfl⟩

/-- Claim C1 as amended: a failure of the subtitle upload is fatal — when the
subtitle document was produced and its upload raises, the whole job returns
the error dict (handler.py lines 156-160 run inside the outer `try` with no
local handler). -/
theorem claim1_amended_subtitle_upload_fatal (env : Env) (job : Job) (t : Str)
    (ps : Option (List Nat)) (evs0 : List Event) (wav : List ℚ)
    (l : List Segment) (e : Str)
    (hT : job.input.text = some t) (hE : t.isEmpty = false)
    (hA : acquireRef env job.input.prompt_speech_url job.id = (.ok ps, evs0))
    (hSy : env.synth (mkParams job.input t ps) = .ok wav)
    (hW : env.sfWrite = .ok ())
    (hES : job.input.enable_subtitles.getD false = true)
    (hwt : wordTimings env job.input = some l) (hl : l.isEmpty = false)
    (hG : env.genSubtitles = true)
    (hU : env.uploadSubtitle = .error e) :
    handler env job = errResp e := by
  simp [handler, handlerCore, hT, hE, hA, hSy, hW, subtitleStep, hES, hwt,
    wtTruthy, hl, hG, hU]

/-- Witness for the amended C1 at the concrete failing-upload environment. -/
theorem claim1_amended_subtitle_upload_fatal_witness :
    handler env1 job1 = errResp ("SubtitleUploadError".data) :=
  claim1_amended_subtitle_upload_fatal env1 job1 ("hello".data) none []
    [0, 0, 0, 0] [{ start := 0, stop := 1, text := "hi".data }]
    ("SubtitleUploadError".data) rfl rfl rfl rfl rfl rfl rfl rfl rfl rfl

/-- Counterexample to C2: when the audio upload transfer succeeds but the
presign call fails, `upload_file` returns `None` and the handler returns a
success response in which neither the audio URL nor an error message is
populated — the claimed "exactly one of (success fields with audio URL) or
errorMessage" fails. -/
theorem claim2_exclusive_cex :
    (handler env2 job2).status = some successStr
    ∧ (handler env2 job2).audio_url = none
    ∧ (handler env2 job2).error = none := ⟨rfl, rfl, rfl⟩

/-- Claim C2 as amended: `handler` is total (every failure is caught and
converted to the error dict), and every result is exactly one of: the error
dict, whose only populated field is `error`, or a success dict with `status`,
`sample_rate` and `duration` populated and `error` absent — but on a success
the audio URL may be absent, when presigned-URL issuance failed after a
completed upload transfer. -/
theorem claim2_amended_result_shape (env : Env) (job : Job) :
    (∃ e, handler env job = errResp e)
    ∨ ((handler env job).error = none
        ∧ (handler env job).status = some successStr
        ∧ (handler env job).sample_rate = some env.sampleRate
        ∧ (handler env job).duration.isSome = true) := by
  rcases hT : job.input.text with _ | t
  · exact Or.inl ⟨msgTextRequired, by simp [handler, handlerCore, hT]⟩
  · cases hE : t.isEmpty with
    | true =>
      exact Or.inl ⟨msgTextRequired, by simp [handler, handlerCore, hT, hE]⟩
    | false =>
      rcases hA : acquireRef env job.input.prompt_speech_url job.id with ⟨res, evs0⟩
      rcases res with e | ps
      · exact Or.inl ⟨e, by simp [handler, handlerCore, hT, hE, hA]⟩
      · rcases hSy : env.synth (mkParams job.input t ps) with e | wav
        · exact Or.inl ⟨e, by simp [handler, handlerCore, hT, hE, hA, hSy]⟩
        · rcases hW : env.sfWrite with e | uu
          · exact Or.inl ⟨e, by simp [handler, handlerCore, hT, hE, hA, hSy, hW]⟩
          · rcases hSub : subtitleStep env (job.input.enable_subtitles.getD false)
                (wordTimings env job.input) (effOutputName job.input) job.id
                with ⟨rs, evsS⟩
            rcases rs with e | su
            · exact Or.inl ⟨e,
                by simp [handler, handlerCore, hT, hE, hA, hSy, hW, hSub]⟩
            · rcases hUa : env.uploadAudio with e | au
              · exact Or.inl ⟨e,
                  by simp [handler, handlerCore, hT, hE, hA, hSy, hW, hSub, hUa]⟩
              · exact Or.inr
                  (by simp [handler, handlerCore, hT, hE, hA, hSy, hW, hSub, hUa])

/-- Counterexample to C8: a stereo reference (two channels, four frames,
already at 16 kHz) is acquired successfully, but the array handed to the
synthesizer has shape `[2, 4]` after `squeeze()` — it is not mono. -/
theorem claim8_mono_cex :
    acquireRef env8 (some ("voices/ref.wav".data)) ("j8".data) =
      (.ok (some [2, 4]),
        [.download ("voices/ref.wav".data) (refPath ("j8".data)),
         .removeFile (refPath ("j8".data))])
    ∧ isMono [2, 4] = false := ⟨rfl, rfl⟩

/-- Claim C8 as amended: on every successful acquisition the temp copy is
deleted before return and the decoded tensor is resampled to 16 kHz exactly
when the native rate differs, but the result is only the `squeeze()` of the
`[channels, frames]` tensor: mono when the audio has one channel, still
multi-channel (not mono) for two or more channels and frames. -/
theorem claim8_amended_acquire (env : Env) (url jid : Str) (c f rate : Nat)
    (hD : env.download = .ok ()) (hDec : env.decode = .ok (c, f, rate)) :
    acquireRef env (some url) jid =
      (.ok (some (squeezeShape c
          (if rate = 16000 then f else env.resampleFrames f rate))),
        [.download url (refPath jid), .removeFile (refPath jid)])
    ∧ (∀ f' : Nat, f' ≠ 1 → isMono (squeezeShape 1 f') = true)
    ∧ (∀ c' f' : Nat, 2 ≤ c' → 2 ≤ f' → isMono (squeezeShape c' f') = false) := by
  refine ⟨by simp [acquireRef, hD, hDec], ?_, ?_⟩
  · intro f' h
    simp [squeezeShape, isMono, h]
  · intro c' f' hc hf
    have h1 : ¬ c' = 1 := by omega
    have h2 : ¬ f' = 1 := by omega
    simp [squeezeShape, isMono, h1, h2]

/-- Witness for the amended C8: a stereo 8 kHz reference is resampled (frames
doubled by the environment's resampler) and the temp file removed; squeeze
keeps one-channel audio mono and two-channel audio two-dimensional. -/
theorem claim8_amended_acquire_witness :
    acquireRef env8w (some ("voices/r.wav".data)) ("j8w".data) =
      (.ok (some (squeezeShape 2
          (if 8000 = 16000 then 8000 else env8w.resampleFrames 8000 8000))),
        [.download ("voices/r.wav".data) (refPath ("j8w".data)),
         .removeFile (refPath ("j8w".data))])
    ∧ isMono (squeezeShape 1 5) = true
    ∧ isMono (squeezeShape 2 5) = false := by
  obtain ⟨h1, h2, h3⟩ := claim8_amended_acquire env8w ("voices/r.wav".data)
    ("j8w".data) 2 8000 8000 rfl rfl
  exact ⟨h1, h2 5 (by decide), h3 2 5 (by decide) (by decide)⟩

/-- Counterexample to C7: when the audio upload raises, the rendered waveform
temp file was created but is never removed — a job-scoped temporary persists
past the job on this exit path. -/
theorem claim7_cleanup_cex :
    outPath ("output".data) ("j7".data) ∈ createdFiles (jobTrace env7 job7)
    ∧ outPath ("output".data) ("j7".data) ∉ removedFiles (jobTrace env7 job7)
    ∧ (handler env7 job7).error = some ("TransportError".data) :=
  ⟨by decide, by decide, rfl⟩

/-- Claim C7 as amended: on the success exit path every temporary local file
the job created is removed before return; on error exit paths temporaries
created before the failure may persist. -/
theorem claim7_amended_success_cleanup (env : Env) (job : Job)
    (hs : (handler env job).status = some successStr) :
    ∀ p, p ∈ createdFiles (jobTrace env job) → p ∈ removedFiles (jobTrace env job) := by
  rcases hT : job.input.text with _ | t
  · simp [handler, handlerCore, hT, errResp] at hs
  · cases hE : t.isEmpty with
    | true => simp [handler, handlerCore, hT, hE, errResp] at hs
    | false =>
      rcases hA : acquireRef env job.input.prompt_speech_url job.id with ⟨res, evs0⟩
      rcases res with e | ps
      · simp [handler, handlerCore, hT, hE, hA, errResp] at hs
      · rcases hSy : env.synth (mkParams job.input t ps) with e | wav
        · simp [handler, handlerCore, hT, hE, hA, hSy, errResp] at hs
        · rcases hW : env.sfWrite with e | uu
          · simp [handler, handlerCore, hT, hE, hA, hSy, hW, errResp] at hs
          · rcases hSub : subtitleStep env (job.input.enable_subtitles.getD false)
                (wordTimings env job.input) (effOutputName job.input) job.id
                with ⟨rs, evsS⟩
            rcases rs with e | su
            · simp [handler, handlerCore, hT, hE, hA, hSy, hW, hSub, errResp] at hs
            · rcases hUa : env.uploadAudio with e | au
              · simp [handler, handlerCore, hT, hE, hA, hSy, hW, hSub, hUa,
                  errResp] at hs
              · intro p hp
                have hTr : jobTrace env job =
                    evs0 ++ (.synthCall ps ::
                      .writeFile (outPath (effOutputName job.input) job.id) ::
                      (evsS ++
                        [.uploadCall (some (outPath (effOutputName job.input) job.id))
                          (audioKey (effOutputName job.input) job.id),
                         .removeFile (outPath (effOutputName job.input) job.id)])) := by
                  simp [jobTrace, handlerCore, hT, hE, hA, hSy, hW, hSub, hUa]
                rw [hTr] at hp ⊢
                simp only [createdFiles_append, createdFiles_synth,
                  createdFiles_write, createdFiles_upload, createdFiles_remove,
                  createdFiles_nil, removedFiles_append, removedFiles_synth,
                  removedFiles_write, removedFiles_upload, removedFiles_remove,
                  removedFiles_nil, List.mem_append, List.mem_cons,
                  List.mem_singleton, List.not_mem_nil, or_false] at hp ⊢
                rcases hp with hp | hp | hp
                · exact Or.inl (acquireRef_ok_clean env _ _ _ _ hA p hp)
                · exact Or.inr (Or.inr hp)
                · exact Or.inr (Or.inl (subtitleStep_ok_clean env _ _ _ _ _ _ hSub p hp))

/-- Witness for the amended C7: in a fully successful job with subtitles, the
rendered waveform temp file is removed before return. -/
theorem claim7_amended_success_cleanup_witness :
    outPath ("output".data) ("j7s".data) ∈ removedFiles (jobTrace env7s job7s) :=
  claim7_amended_success_cleanup env7s job7s (by decide)
    (outPath ("output".data) ("j7s".data)) (by decide)

end SparkTTS
